import Mathlib

/-!
Verification of the BLE-MIDI example firmware
(`examples/ble_xg27_midi/ble_xg27_midi.ino`).

The development shallowly embeds the sketch's data model and operations:

* `midi_event_packet_t`, `midi_note_on_packet`, `midi_note_off_packet` —
  the 5-byte BLE-MIDI packet and the byte computations performed by
  `midi_note_on` / `midi_note_off`;
* `MidiState`, `handleNoteOn`, `handleNoteOff`, `loopIteration` — the
  note-event capture flags and the main `loop` body;
* `BleState`, `ble_start_advertising`, `ble_initialize_gatt_db`,
  `sl_bt_on_event`, `runEvents` — the advertising / connection lifecycle.

Machine integers are modelled as `Nat` with explicit `% 256` where a value
is stored into a `uint8_t` field. External Silicon Labs stack primitives
are modelled as trace events (`BleCall`); the statuses they return are
supplied by an `Env`. `app_assert_status` halts the firmware on a
non-success status, which the model renders as `none`.
-/

namespace BleMidi

/-- `PACKSTRUCT` `midi_event_packet_t`: the fixed 5-byte BLE-MIDI packet
`{ header, timestamp, status, note, velocity }`, each field a `uint8_t`. -/
structure midi_event_packet_t where
  header : Nat
  timestamp : Nat
  status : Nat
  note : Nat
  velocity : Nat
  deriving Repr, DecidableEq

/-- The 5-byte wire image of a packet (`midi_data_t.payload`), in the order
the fields are laid out in memory. -/
def payloadBytes (p : midi_event_packet_t) : List Nat :=
  [p.header, p.timestamp, p.status, p.note, p.velocity]

/-- The packet assembled by `midi_note_on`: the 13-bit masked millisecond
timestamp `temp = ms & 0x1fff`, `header = 0x80 | (temp >> 7)`,
`timestamp = 0x80 | (temp & 0x3f)`, `status = 0x90`, and the `note` and
`velocity` arguments.  Each store into a `uint8_t` field truncates
modulo 256, exactly as the C assignment does. -/
def midi_note_on_packet (note velocity nowMillis : Nat) : midi_event_packet_t :=
  let temp := nowMillis &&& 0x1fff
  { header := (0x80 ||| (temp >>> 7)) % 256
    timestamp := (0x80 ||| (temp &&& 0x3f)) % 256
    status := 0x90
    note := note % 256
    velocity := velocity % 256 }

/-- The packet assembled by `midi_note_off`: identical to
`midi_note_on_packet` except that `status = 0x80`. -/
def midi_note_off_packet (note velocity nowMillis : Nat) : midi_event_packet_t :=
  let temp := nowMillis &&& 0x1fff
  { header := (0x80 ||| (temp >>> 7)) % 256
    timestamp := (0x80 ||| (temp &&& 0x3f)) % 256
    status := 0x80
    note := note % 256
    velocity := velocity % 256 }

/-- The 13-bit timestamp value a client recovers from a packet, per the
documented reconstruction `((header & 0x3F) << 7) | (timestampLow & 0x3F)`. -/
def recoverTimestamp (p : midi_event_packet_t) : Nat :=
  ((p.header &&& 0x3f) <<< 7) ||| (p.timestamp &&& 0x3f)

theorem and_1fff_eq_mod (n : Nat) : n &&& 0x1fff = n % 8192 := by
  have h := Nat.and_pow_two_sub_one_eq_mod n 13
  norm_num at h
  exact h

theorem header_lt_256 (t : Nat) (ht : t < 8192) : 0x80 ||| (t >>> 7) < 256 := by
  have h1 : t >>> 7 < 2 ^ 8 := by
    have h7 : (2 : Nat) ^ 7 = 128 := by norm_num
    have h8 : (2 : Nat) ^ 8 = 256 := by norm_num
    rw [Nat.shiftRight_eq_div_pow, h7, h8]
    omega
  have h2 : (0x80 : Nat) < 2 ^ 8 := by norm_num
  have h := Nat.or_lt_two_pow h2 h1
  norm_num at h
  exact h

theorem tslow_lt_256 (t : Nat) : 0x80 ||| (t &&& 0x3f) < 256 := by
  have h1 : t &&& 0x3f < 2 ^ 8 := by
    have h := Nat.and_pow_two_sub_one_eq_mod t 6
    norm_num at h
    have h8 : (2 : Nat) ^ 8 = 256 := by norm_num
    rw [h8, h]
    omega
  have h2 : (0x80 : Nat) < 2 ^ 8 := by norm_num
  have h := Nat.or_lt_two_pow h2 h1
  norm_num at h
  exact h

/-- C1: on byte inputs, the packets built by `midi_note_on` and
`midi_note_off` are exactly the 5 bytes given by `t = nowMillis & 0x1FFF`,
`header = 0x80 | (t >> 7)`, `timestampLow = 0x80 | (t & 0x3F)`,
`status = 0x90` (on) / `0x80` (off), with `note` and `velocity` copied
verbatim (no clamping, no truncation).  Both builders are total Lean
functions, so no error condition exists. -/
theorem packet_encode_exact (note velocity nowMillis : Nat)
    (hn : note < 256) (hv : velocity < 256) (hm : nowMillis < 2 ^ 32) :
    midi_note_on_packet note velocity nowMillis =
      { header := 0x80 ||| ((nowMillis &&& 0x1fff) >>> 7)
        timestamp := 0x80 ||| ((nowMillis &&& 0x1fff) &&& 0x3f)
        status := 0x90
        note := note
        velocity := velocity } ∧
    midi_note_off_packet note velocity nowMillis =
      { header := 0x80 ||| ((nowMillis &&& 0x1fff) >>> 7)
        timestamp := 0x80 ||| ((nowMillis &&& 0x1fff) &&& 0x3f)
        status := 0x80
        note := note
        velocity := velocity } := by
  have ht : nowMillis &&& 0x1fff < 8192 := by
    rw [and_1fff_eq_mod]; omega
  have hh := header_lt_256 (nowMillis &&& 0x1fff) ht
  have hl := tslow_lt_256 (nowMillis &&& 0x1fff)
  constructor <;>
    simp [midi_note_on_packet, midi_note_off_packet,
      Nat.mod_eq_of_lt hh, Nat.mod_eq_of_lt hl,
      Nat.mod_eq_of_lt hn, Nat.mod_eq_of_lt hv]

theorem packet_encode_exact_witness :
    (42 < 256 ∧ 127 < 256 ∧ 5000 < 2 ^ 32) ∧
    (midi_note_on_packet 42 127 5000 =
      { header := 0x80 ||| ((5000 &&& 0x1fff) >>> 7)
        timestamp := 0x80 ||| ((5000 &&& 0x1fff) &&& 0x3f)
        status := 0x90
        note := 42
        velocity := 127 } ∧
    midi_note_off_packet 42 127 5000 =
      { header := 0x80 ||| ((5000 &&& 0x1fff) >>> 7)
        timestamp := 0x80 ||| ((5000 &&& 0x1fff) &&& 0x3f)
        status := 0x80
        note := 42
        velocity := 127 }) :=
  ⟨by decide, packet_encode_exact 42 127 5000 (by decide) (by decide) (by decide)⟩

set_option maxRecDepth 4000 in
theorem recover_key2 : ∀ hi : Nat, hi < 64 → ∀ lo : Nat, lo < 128 →
    (((0x80 ||| ((128 * hi + lo) >>> 7)) % 256 &&& 0x3f) <<< 7) |||
      ((0x80 ||| ((128 * hi + lo) &&& 0x3f)) % 256 &&& 0x3f) =
      (128 * hi + lo) &&& 0x1fbf := by
  decide

theorem recover_key (t : Nat) (ht : t < 8192) :
    (((0x80 ||| (t >>> 7)) % 256 &&& 0x3f) <<< 7) |||
      ((0x80 ||| (t &&& 0x3f)) % 256 &&& 0x3f) = t &&& 0x1fbf := by
  have h1 : t / 128 < 64 := by omega
  have h2 : t % 128 < 128 := Nat.mod_lt _ (by omega)
  have h := recover_key2 (t / 128) h1 (t % 128) h2
  rw [Nat.div_add_mod t 128] at h
  exact h

theorem recover_for_mod (nowMillis : Nat) :
    recoverTimestamp (midi_note_on_packet 0 0 nowMillis) = nowMillis &&& 0x1fbf ∧
    recoverTimestamp (midi_note_off_packet 0 0 nowMillis) = nowMillis &&& 0x1fbf := by
  have ht : nowMillis &&& 0x1fff < 8192 := by
    rw [and_1fff_eq_mod]; omega
  have hkey := recover_key (nowMillis &&& 0x1fff) ht
  have hrhs : (nowMillis &&& 0x1fff) &&& 0x1fbf = nowMillis &&& 0x1fbf := by
    rw [Nat.and_assoc]
    congr 1
  constructor <;>
    · show (((0x80 ||| ((nowMillis &&& 0x1fff) >>> 7)) % 256 &&& 0x3f) <<< 7) |||
        ((0x80 ||| ((nowMillis &&& 0x1fff) &&& 0x3f)) % 256 &&& 0x3f) = nowMillis &&& 0x1fbf
      rw [hkey, hrhs]

/-- C5: for every `nowMillis` below `2^32`, the 13-bit timestamp recovered
from the encoded packet as `((header & 0x3F) << 7) | (timestampLow & 0x3F)`
equals `nowMillis & 0x1FBF` — bit 6 is lost to the narrow `0x3F` low-field
mask, for the note-on and the note-off packet alike. -/
theorem timestamp_roundtrip (note velocity nowMillis : Nat)
    (hm : nowMillis < 2 ^ 32) :
    recoverTimestamp (midi_note_on_packet note velocity nowMillis) =
        nowMillis &&& 0x1fbf ∧
    recoverTimestamp (midi_note_off_packet note velocity nowMillis) =
        nowMillis &&& 0x1fbf := by
  have h := recover_for_mod nowMillis
  constructor
  · exact h.1
  · exact h.2

theorem timestamp_roundtrip_witness :
    (5000 < 2 ^ 32) ∧
    (recoverTimestamp (midi_note_on_packet 42 127 5000) = 5000 &&& 0x1fbf ∧
     recoverTimestamp (midi_note_off_packet 42 127 5000) = 5000 &&& 0x1fbf) :=
  ⟨by decide, timestamp_roundtrip 42 127 5000 (by decide)⟩

/-! ## Note-event capture (`note_to_send`, `note_velocity`, event flags) -/

/-- The sketch's note-capture globals: one shared payload pair
(`note_to_send`, `note_velocity`, both `uint8_t`) and one `volatile bool`
flag per event kind (`note_on_event`, `note_off_event`). -/
structure MidiState where
  note_to_send : Nat
  note_velocity : Nat
  note_on_event : Bool
  note_off_event : Bool
  deriving Repr, DecidableEq

/-- `handleNoteOn(channel, pitch, velocity)`: stores the pitch and velocity
into the shared payload globals and raises `note_on_event`.  The channel is
only printed.  Stores into `uint8_t` globals truncate modulo 256. -/
def handleNoteOn (channel pitch velocity : Nat) (s : MidiState) : MidiState :=
  { s with
    note_to_send := pitch % 256
    note_velocity := velocity % 256
    note_on_event := true }

/-- `handleNoteOff(channel, pitch, velocity)`: stores the pitch and velocity
into the same shared payload globals and raises `note_off_event`. -/
def handleNoteOff (channel pitch velocity : Nat) (s : MidiState) : MidiState :=
  { s with
    note_to_send := pitch % 256
    note_velocity := velocity % 256
    note_off_event := true }

/-- C6 counterexample: with an On event pending with payload `(10, 5)`, a
`handleNoteOff(1, 3, 4)` call rewrites the payload the pending On event
will be sent with to `(3, 4)`: the claimed per-kind payload isolation
fails because both kinds share `note_to_send` / `note_velocity`. -/
theorem shared_payload_overwritten :
    (handleNoteOff 1 3 4
        { note_to_send := 10, note_velocity := 5,
          note_on_event := true, note_off_event := false }) =
      { note_to_send := 3, note_velocity := 4,
        note_on_event := true, note_off_event := true } ∧
    ((3 : Nat), (4 : Nat)) ≠ ((10 : Nat), (5 : Nat)) := by
  decide

/-- C6 (amended): the capture state holds a single shared payload slot for
both event kinds.  `handleNoteOff` leaves a pending On flag raised but
overwrites the shared payload with its own pitch and velocity, and
symmetrically `handleNoteOn` overwrites the payload a pending Off event
would be sent with; only the two boolean flags are per-kind. -/
theorem shared_slot_per_kind_flags (s : MidiState) (ch p v : Nat) :
    (handleNoteOff ch p v s).note_on_event = s.note_on_event ∧
    (handleNoteOff ch p v s).note_to_send = p % 256 ∧
    (handleNoteOff ch p v s).note_velocity = v % 256 ∧
    (handleNoteOn ch p v s).note_off_event = s.note_off_event ∧
    (handleNoteOn ch p v s).note_to_send = p % 256 ∧
    (handleNoteOn ch p v s).note_velocity = v % 256 :=
  ⟨rfl, rfl, rfl, rfl, rfl, rfl⟩

/-- C7: from a state with no pending events, two `handleNoteOn(_, 10, 5)`
calls before the loop polls leave exactly one pending On event — the
single On flag raised, the Off flag still clear — with payload `(10, 5)`:
the second producer call silently overwrote the first (last-write-wins,
no queueing). -/
theorem note_on_last_write_wins (s : MidiState) (ch1 ch2 : Nat)
    (hOn : s.note_on_event = false) (hOff : s.note_off_event = false) :
    handleNoteOn ch2 10 5 (handleNoteOn ch1 10 5 s) =
      { note_to_send := 10, note_velocity := 5,
        note_on_event := true, note_off_event := false } := by
  simp [handleNoteOn, ← hOff]

theorem note_on_last_write_wins_witness :
    (({ note_to_send := 0, note_velocity := 0,
        note_on_event := false, note_off_event := false } : MidiState).note_on_event
        = false) ∧
    handleNoteOn 2 10 5 (handleNoteOn 1 10 5
        { note_to_send := 0, note_velocity := 0,
          note_on_event := false, note_off_event := false }) =
      { note_to_send := 10, note_velocity := 5,
        note_on_event := true, note_off_event := false } :=
  ⟨rfl, note_on_last_write_wins _ 1 2 rfl rfl⟩

/-! ## External Silicon Labs stack primitives as a call trace -/

/-- One invocation of an external Silicon Labs stack primitive, with the
arguments the sketch passes. -/
inductive BleCall where
  | gattdbNewSession
  | gattdbAddService (uuid : List Nat)
  | gattdbAddCharacteristic
      (uuid : List Nat) (valueType maxLength initialLen : Nat)
      (initialValue : List Nat)
  | gattdbStartService
  | gattdbCommit
  | createAdvertisingSet
  | setAdvertisingTiming (handle intervalMin intervalMax duration maxEvents : Nat)
  | generateAdvertisingData (handle discoverMode : Nat)
  | startAdvertising (handle connectMode : Nat)
  | sendNotification (connection characteristic length : Nat) (value : List Nat)
  deriving Repr, DecidableEq

/-- The statuses (`sl_status_t`, `0` = `SL_STATUS_OK`) and output values the
external stack returns to each primitive the sketch calls. -/
structure Env where
  newSessionStatus : Nat
  addGenericAccessServiceStatus : Nat
  addDeviceNameStatus : Nat
  startGenericAccessStatus : Nat
  addMidiServiceStatus : Nat
  addMidiCharStatus : Nat
  startMidiServiceStatus : Nat
  commitStatus : Nat
  createSetStatus : Nat
  createSetHandle : Nat
  setTimingStatus : Nat
  generateDataStatus : Nat
  startAdvStatus : Nat
  deriving Repr, DecidableEq

/-- An `Env` in which every primitive succeeds. -/
def env0 : Env :=
  { newSessionStatus := 0
    addGenericAccessServiceStatus := 0
    addDeviceNameStatus := 0
    startGenericAccessStatus := 0
    addMidiServiceStatus := 0
    addMidiCharStatus := 0
    startMidiServiceStatus := 0
    commitStatus := 0
    createSetStatus := 0
    createSetHandle := 0
    setTimingStatus := 0
    generateDataStatus := 0
    startAdvStatus := 0 }

/-- `sl_bt_gattdb_fixed_length_value` (SDK enumeration value). -/
def sl_bt_gattdb_fixed_length_value : Nat := 1

/-- `sl_bt_advertiser_general_discoverable` (SDK enumeration value). -/
def sl_bt_advertiser_general_discoverable : Nat := 2

/-- `sl_bt_advertiser_connectable_scannable` (SDK enumeration value). -/
def sl_bt_advertiser_connectable_scannable : Nat := 2

/-- `static const uint8_t advertised_name[] = "MIDI BLE Example"`
(16 bytes, terminating NUL excluded as the sketch passes `sizeof - 1`). -/
def advertised_name : List Nat :=
  [77, 73, 68, 73, 32, 66, 76, 69, 32, 69, 120, 97, 109, 112, 108, 101]

/-- Generic Access service UUID bytes `{ 0x00, 0x18 }`. -/
def generic_access_service_uuid : List Nat := [0x00, 0x18]

/-- Device Name characteristic UUID bytes `{ 0x00, 0x2A }`. -/
def device_name_characteristic_uuid : List Nat := [0x00, 0x2A]

/-- BLE-MIDI service UUID `03B80E5A-EDE8-4B33-A751-6CE34EC4C700`
(little-endian byte order, as in the sketch). -/
def midi_service_uuid : List Nat :=
  [0x00, 0xC7, 0xC4, 0x4E, 0xE3, 0x6C, 0x51, 0xA7,
   0x33, 0x4B, 0xE8, 0xED, 0x5A, 0x0E, 0xB8, 0x03]

/-- BLE-MIDI data characteristic UUID `7772E5DB-3868-4112-A1A9-F2669D106BF3`
(little-endian byte order, as in the sketch). -/
def midi_report_characteristic_uuid : List Nat :=
  [0xF3, 0x6B, 0x10, 0x9D, 0x66, 0xF2, 0xA9, 0xA1,
   0x12, 0x41, 0x68, 0x38, 0xDB, 0xE5, 0x72, 0x77]

/-- `midi_note_on(note, velocity)`: assembles the note-on packet and
unconditionally calls `sl_bt_gatt_server_send_notification(conn_handle,
midi_report_characteristic_handle, 5, &note_on)`.  There is no connection
guard: the handle is passed as-is, and the returned status is ignored. -/
def midi_note_on (note velocity nowMillis conn_handle char_handle : Nat) :
    List BleCall :=
  [BleCall.sendNotification conn_handle char_handle 5
    (payloadBytes (midi_note_on_packet note velocity nowMillis))]

/-- `midi_note_off(note, velocity)`: same as `midi_note_on` with the
note-off packet. -/
def midi_note_off (note velocity nowMillis conn_handle char_handle : Nat) :
    List BleCall :=
  [BleCall.sendNotification conn_handle char_handle 5
    (payloadBytes (midi_note_off_packet note velocity nowMillis))]

/-- C2 (code evaluated at the failing input): with no peer attached —
`conn_handle` still the `0xFF` sentinel it is initialised to — `midi_note_on`
performs exactly one `sl_bt_gatt_server_send_notification` call, passing the
sentinel handle `0xFF` to the external primitive.  No `NotConnected` error
path exists in the sketch. -/
theorem send_unguarded_at_sentinel :
    midi_note_on 42 127 0 0xFF 0 =
      [BleCall.sendNotification 0xFF 0 5
        (payloadBytes (midi_note_on_packet 42 127 0))] ∧
    (midi_note_on 42 127 0 0xFF 0).length = 1 := by
  decide

/-! ## Main loop body -/

/-- The body of `loop()` after `midiA.read()` has run: each pending flag is
cleared and the corresponding `midi_note_*` send is performed, note-on
first, then note-off.  `now1` and `now2` are the two millisecond readings
the two sends take from the sleeptimer. -/
def loopIteration (now1 now2 conn_handle char_handle : Nat) (s : MidiState) :
    MidiState × List BleCall :=
  let onPair :=
    if s.note_on_event then
      ({ s with note_on_event := false },
        midi_note_on s.note_to_send s.note_velocity now1 conn_handle char_handle)
    else (s, [])
  let s1 := onPair.1
  let offPair :=
    if s1.note_off_event then
      ({ s1 with note_off_event := false },
        midi_note_off s1.note_to_send s1.note_velocity now2 conn_handle char_handle)
    else (s1, [])
  (offPair.1, onPair.2 ++ offPair.2)

/-- C10: in a loop iteration where both a note-on and a note-off event are
pending, the note-on event is consumed, encoded and sent strictly before
the note-off event, and both pending flags are clear at the end of the
iteration. -/
theorem loop_on_before_off (now1 now2 ch mh : Nat) (s : MidiState)
    (hOn : s.note_on_event = true) (hOff : s.note_off_event = true) :
    loopIteration now1 now2 ch mh s =
      ({ s with note_on_event := false, note_off_event := false },
       [BleCall.sendNotification ch mh 5
          (payloadBytes (midi_note_on_packet s.note_to_send s.note_velocity now1)),
        BleCall.sendNotification ch mh 5
          (payloadBytes (midi_note_off_packet s.note_to_send s.note_velocity now2))]) := by
  simp [loopIteration, midi_note_on, midi_note_off, hOn, hOff]

theorem loop_on_before_off_witness :
    (({ note_to_send := 60, note_velocity := 100,
        note_on_event := true, note_off_event := true } : MidiState).note_on_event
        = true) ∧
    loopIteration 7 9 3 21
        { note_to_send := 60, note_velocity := 100,
          note_on_event := true, note_off_event := true } =
      ({ note_to_send := 60, note_velocity := 100,
         note_on_event := false, note_off_event := false },
       [BleCall.sendNotification 3 21 5 (payloadBytes (midi_note_on_packet 60 100 7)),
        BleCall.sendNotification 3 21 5 (payloadBytes (midi_note_off_packet 60 100 9))]) :=
  ⟨rfl, loop_on_before_off 7 9 3 21 _ rfl rfl⟩

/-! ## Connection / advertising lifecycle -/

/-- The spec's connection-state machine values.  The sketch keeps this state
implicitly (there is no state variable in the source); the model carries it
as a ghost field so the lifecycle claims can name the states. -/
inductive ConnState where
  | idle
  | advertising
  | connected
  deriving Repr, DecidableEq

/-- The lifecycle-relevant globals of the sketch: `conn_handle`
(`static uint8_t`, initialised to the `0xFF` sentinel), the
`static bool init` guard and `static uint8_t advertising_set_handle`
(initialised to `0xff`) of `ble_start_advertising`, plus the ghost
`connState` (see `ConnState`). -/
structure BleState where
  conn_handle : Nat
  adv_init : Bool
  advertising_set_handle : Nat
  connState : ConnState
  deriving Repr, DecidableEq

/-- The global state at program start. -/
def initialState : BleState :=
  { conn_handle := 0xFF
    adv_init := true
    advertising_set_handle := 0xFF
    connState := ConnState.idle }

/-- The unconditional tail of `ble_start_advertising`:
`sl_bt_legacy_advertiser_generate_data` then `sl_bt_legacy_advertiser_start`,
each followed by `app_assert_status`, which halts (`none`) on a non-success
status. -/
def adv_tail (env : Env) (s : BleState) : Option BleState × List BleCall :=
  if env.generateDataStatus ≠ 0 then
    (none, [BleCall.generateAdvertisingData s.advertising_set_handle
      sl_bt_advertiser_general_discoverable])
  else if env.startAdvStatus ≠ 0 then
    (none, [BleCall.generateAdvertisingData s.advertising_set_handle
        sl_bt_advertiser_general_discoverable,
      BleCall.startAdvertising s.advertising_set_handle
        sl_bt_advertiser_connectable_scannable])
  else
    (some s, [BleCall.generateAdvertisingData s.advertising_set_handle
        sl_bt_advertiser_general_discoverable,
      BleCall.startAdvertising s.advertising_set_handle
        sl_bt_advertiser_connectable_scannable])

/-- `ble_start_advertising()`: on the first call (`init` still true) it
creates the advertising set and configures its timing — both under
`app_assert_status` — and clears `init`; every call then generates
advertising data and starts advertising (`adv_tail`). -/
def ble_start_advertising (env : Env) (s : BleState) :
    Option BleState × List BleCall :=
  if s.adv_init then
    if env.createSetStatus ≠ 0 then (none, [BleCall.createAdvertisingSet])
    else if env.setTimingStatus ≠ 0 then
      (none, [BleCall.createAdvertisingSet,
        BleCall.setAdvertisingTiming (env.createSetHandle % 256) 160 160 0 0])
    else
      ((adv_tail env
          { s with adv_init := false, advertising_set_handle := env.createSetHandle % 256 }).1,
        [BleCall.createAdvertisingSet,
          BleCall.setAdvertisingTiming (env.createSetHandle % 256) 160 160 0 0] ++
        (adv_tail env
          { s with adv_init := false, advertising_set_handle := env.createSetHandle % 256 }).2)
  else adv_tail env s

/-- The Device Name characteristic call (fixed length `sizeof(name) - 1 = 16`). -/
def addNameChar : BleCall :=
  BleCall.gattdbAddCharacteristic device_name_characteristic_uuid
    sl_bt_gattdb_fixed_length_value 16 16 advertised_name

/-- The BLE-MIDI data characteristic call: the sketch passes `1` as the
maximum value length and `sizeof(midi_char_init_value) = 1` as the initial
value length, with a single zero byte as the initial value. -/
def addMidiChar : BleCall :=
  BleCall.gattdbAddCharacteristic midi_report_characteristic_uuid
    sl_bt_gattdb_fixed_length_value 1 1 [0]

/-- `ble_initialize_gatt_db()`: the one-time GATT database construction.
Every call but one is followed by `app_assert_status`; the status of the
MIDI-characteristic `sl_bt_gattdb_add_uuid128_characteristic` call is
assigned but never checked, exactly as in the sketch (so its failure does
not halt), and its trace entry is `addMidiChar`. -/
def ble_initialize_gatt_db (env : Env) : Option Unit × List BleCall :=
  if env.newSessionStatus ≠ 0 then (none, [BleCall.gattdbNewSession])
  else if env.addGenericAccessServiceStatus ≠ 0 then
    (none, [BleCall.gattdbNewSession,
      BleCall.gattdbAddService generic_access_service_uuid])
  else if env.addDeviceNameStatus ≠ 0 then
    (none, [BleCall.gattdbNewSession,
      BleCall.gattdbAddService generic_access_service_uuid, addNameChar])
  else if env.startGenericAccessStatus ≠ 0 then
    (none, [BleCall.gattdbNewSession,
      BleCall.gattdbAddService generic_access_service_uuid, addNameChar,
      BleCall.gattdbStartService])
  else if env.addMidiServiceStatus ≠ 0 then
    (none, [BleCall.gattdbNewSession,
      BleCall.gattdbAddService generic_access_service_uuid, addNameChar,
      BleCall.gattdbStartService,
      BleCall.gattdbAddService midi_service_uuid])
  else if env.startMidiServiceStatus ≠ 0 then
    (none, [BleCall.gattdbNewSession,
      BleCall.gattdbAddService generic_access_service_uuid, addNameChar,
      BleCall.gattdbStartService,
      BleCall.gattdbAddService midi_service_uuid, addMidiChar,
      BleCall.gattdbStartService])
  else if env.commitStatus ≠ 0 then
    (none, [BleCall.gattdbNewSession,
      BleCall.gattdbAddService generic_access_service_uuid, addNameChar,
      BleCall.gattdbStartService,
      BleCall.gattdbAddService midi_service_uuid, addMidiChar,
      BleCall.gattdbStartService, BleCall.gattdbCommit])
  else
    (some (), [BleCall.gattdbNewSession,
      BleCall.gattdbAddService generic_access_service_uuid, addNameChar,
      BleCall.gattdbStartService,
      BleCall.gattdbAddService midi_service_uuid, addMidiChar,
      BleCall.gattdbStartService, BleCall.gattdbCommit])

/-- The lifecycle events `sl_bt_on_event` dispatches on. -/
inductive BleEvent where
  | boot
  | connectionOpened (handle : Nat)
  | connectionClosed
  | attributeValue
  | other
  deriving Repr, DecidableEq

/-- `sl_bt_on_event(evt)`: boot builds the GATT database and starts
advertising; `connection_opened` stores the peer's handle (a `uint8_t`);
`connection_closed` restarts advertising; all other events fall through.
The ghost `connState` follows the spec's machine: Advertising after a
successful (re)start, Connected after an open. -/
def sl_bt_on_event (env : Env) (s : BleState) (e : BleEvent) :
    Option BleState × List BleCall :=
  match e with
  | BleEvent.boot =>
    match (ble_initialize_gatt_db env).1 with
    | none => (none, (ble_initialize_gatt_db env).2)
    | some _ =>
      match (ble_start_advertising env s).1 with
      | none =>
        (none, (ble_initialize_gatt_db env).2 ++ (ble_start_advertising env s).2)
      | some s1 =>
        (some { s1 with connState := ConnState.advertising },
          (ble_initialize_gatt_db env).2 ++ (ble_start_advertising env s).2)
  | BleEvent.connectionOpened h =>
    (some { s with conn_handle := h % 256, connState := ConnState.connected }, [])
  | BleEvent.connectionClosed =>
    match (ble_start_advertising env s).1 with
    | none => (none, (ble_start_advertising env s).2)
    | some s1 =>
      (some { s1 with connState := ConnState.advertising },
        (ble_start_advertising env s).2)
  | BleEvent.attributeValue => (some s, [])
  | BleEvent.other => (some s, [])

/-- Delivers a list of lifecycle events, each with the statuses its
primitives will return, starting from an accumulated (state, trace) pair.
Once the firmware has halted on a failed assert (`none`), later events are
not processed. -/
def runFrom (acc : Option BleState × List BleCall) :
    List (Env × BleEvent) → Option BleState × List BleCall
  | [] => acc
  | step :: rest =>
    match acc.1 with
    | none => runFrom acc rest
    | some s =>
      runFrom ((sl_bt_on_event step.1 s step.2).1,
        acc.2 ++ (sl_bt_on_event step.1 s step.2).2) rest

/-- A whole process run: events delivered from the initial state. -/
def runEvents (steps : List (Env × BleEvent)) : Option BleState × List BleCall :=
  runFrom (some initialState, []) steps

/-- Recognises `createAdvertisingSet` calls in a trace. -/
def isCreate : BleCall → Bool
  | BleCall.createAdvertisingSet => true
  | _ => false

/-- Recognises `setAdvertisingTiming` calls in a trace. -/
def isTiming : BleCall → Bool
  | BleCall.setAdvertisingTiming _ _ _ _ _ => true
  | _ => false

/-- How many more `createAdvertisingSet` / `setAdvertisingTiming` calls a
state can still emit: one while `init` is uncleared, none afterwards or
once halted. -/
def advBudget : Option BleState → Nat
  | none => 0
  | some s => if s.adv_init then 1 else 0

theorem adv_tail_no_init_calls (p : BleCall → Bool)
    (hg : ∀ h m, p (BleCall.generateAdvertisingData h m) = false)
    (hs : ∀ h m, p (BleCall.startAdvertising h m) = false)
    (env : Env) (s : BleState) :
    (adv_tail env s).2.countP p = 0 ∧
      ((adv_tail env s).1 = none ∨ (adv_tail env s).1 = some s) := by
  unfold adv_tail
  split
  · simp [List.countP_cons, List.countP_nil, hg]
  · split <;> simp [List.countP_cons, List.countP_nil, hg, hs]

theorem gattdb_no_init_calls (p : BleCall → Bool)
    (h1 : p BleCall.gattdbNewSession = false)
    (h2 : ∀ u, p (BleCall.gattdbAddService u) = false)
    (h3 : ∀ u t n i v, p (BleCall.gattdbAddCharacteristic u t n i v) = false)
    (h4 : p BleCall.gattdbStartService = false)
    (h5 : p BleCall.gattdbCommit = false)
    (env : Env) :
    (ble_initialize_gatt_db env).2.countP p = 0 := by
  unfold ble_initialize_gatt_db
  repeat' split
  all_goals
    simp [List.countP_cons, List.countP_nil, addNameChar, addMidiChar,
      h1, h2, h3, h4, h5]

theorem bsa_budget (p : BleCall → Bool)
    (hg : ∀ h m, p (BleCall.generateAdvertisingData h m) = false)
    (hs : ∀ h m, p (BleCall.startAdvertising h m) = false)
    (hone : ∀ h, List.countP p [BleCall.createAdvertisingSet,
      BleCall.setAdvertisingTiming h 160 160 0 0] ≤ 1)
    (env : Env) (s : BleState) :
    (ble_start_advertising env s).2.countP p +
      advBudget (ble_start_advertising env s).1 ≤ advBudget (some s) := by
  have hone1 : List.countP p [BleCall.createAdvertisingSet] ≤ 1 := by
    have h := hone 0
    simp only [List.countP_cons, List.countP_nil] at h ⊢
    omega
  unfold ble_start_advertising
  split
  case isTrue hI =>
    split
    case isTrue h1 =>
      simpa [advBudget, hI] using hone1
    case isFalse h1 =>
      split
      case isTrue h2 =>
        simpa [advBudget, hI] using hone (env.createSetHandle % 256)
      case isFalse h2 =>
        obtain ⟨hz, hopt⟩ := adv_tail_no_init_calls p hg hs env
          { s with adv_init := false, advertising_set_handle := env.createSetHandle % 256 }
        have hcnt := hone (env.createSetHandle % 256)
        rcases hopt with h | h <;>
          · simp only [h, List.countP_append, hz, advBudget, hI, if_true]
            simpa using hcnt
  case isFalse hI =>
    obtain ⟨hz, hopt⟩ := adv_tail_no_init_calls p hg hs env s
    have hI2 : s.adv_init = false := by
      revert hI
      cases s.adv_init <;> simp
    rcases hopt with h | h <;> simp [h, hz, advBudget, hI2]

theorem on_event_budget (p : BleCall → Bool)
    (hbsa : ∀ env s, (ble_start_advertising env s).2.countP p +
      advBudget (ble_start_advertising env s).1 ≤ advBudget (some s))
    (hdb : ∀ env, (ble_initialize_gatt_db env).2.countP p = 0)
    (env : Env) (s : BleState) (e : BleEvent) :
    (sl_bt_on_event env s e).2.countP p +
      advBudget (sl_bt_on_event env s e).1 ≤ advBudget (some s) := by
  cases e with
  | boot =>
    unfold sl_bt_on_event
    cases hg : (ble_initialize_gatt_db env).1 with
    | none => simp [hg, hdb env, advBudget]
    | some u =>
      have h := hbsa env s
      cases ha : (ble_start_advertising env s).1 with
      | none =>
        simp only [hg, ha] at h ⊢
        simp [List.countP_append, hdb env, advBudget] at h ⊢
        omega
      | some s1 =>
        simp only [hg, ha] at h ⊢
        simp [List.countP_append, hdb env, advBudget] at h ⊢
        exact h
  | connectionOpened h => simp [sl_bt_on_event, advBudget]
  | connectionClosed =>
    unfold sl_bt_on_event
    have h := hbsa env s
    cases ha : (ble_start_advertising env s).1 with
    | none =>
      simp only [ha] at h ⊢
      simp [advBudget] at h ⊢
      omega
    | some s1 =>
      simp only [ha] at h ⊢
      simp [advBudget] at h ⊢
      exact h
  | attributeValue => simp [sl_bt_on_event, advBudget]
  | other => simp [sl_bt_on_event, advBudget]

theorem runFrom_budget (p : BleCall → Bool)
    (hstep : ∀ env s e, (sl_bt_on_event env s e).2.countP p +
      advBudget (sl_bt_on_event env s e).1 ≤ advBudget (some s)) :
    ∀ (steps : List (Env × BleEvent)) (acc : Option BleState × List BleCall),
      acc.2.countP p + advBudget acc.1 ≤ 1 →
      (runFrom acc steps).2.countP p + advBudget (runFrom acc steps).1 ≤ 1 := by
  intro steps
  induction steps with
  | nil => intro acc h; simpa [runFrom] using h
  | cons step rest ih =>
    intro acc h
    unfold runFrom
    cases hA : acc.1 with
    | none => exact ih acc (by simpa [hA] using h)
    | some s =>
      apply ih
      have hse := hstep step.1 s step.2
      rw [hA] at h
      simp only [List.countP_append]
      omega

/-- C4: over every sequence of lifecycle events from the initial state,
`createAdvertisingSet` and the associated `setAdvertisingTiming`
configuration execute at most once in the whole process lifetime — the
`static bool init` guard — including when `boot` is delivered twice
(exactly one creation across the two boots); and the first `boot` event
takes the machine from Idle to Advertising. -/
theorem adv_set_created_at_most_once :
    (∀ steps : List (Env × BleEvent),
      (runEvents steps).2.countP isCreate ≤ 1 ∧
      (runEvents steps).2.countP isTiming ≤ 1) ∧
    (runEvents [(env0, BleEvent.boot), (env0, BleEvent.boot)]).2.countP isCreate
      = 1 ∧
    (runEvents [(env0, BleEvent.boot), (env0, BleEvent.boot)]).2.countP isTiming
      = 1 ∧
    initialState.connState = ConnState.idle ∧
    (runEvents [(env0, BleEvent.boot)]).1 =
      some { conn_handle := 0xFF, adv_init := false,
             advertising_set_handle := 0, connState := ConnState.advertising } := by
  refine ⟨fun steps => ⟨?_, ?_⟩, by decide, by decide, by decide, by decide⟩
  · have hdb := fun env => gattdb_no_init_calls isCreate rfl (fun _ => rfl)
      (fun _ _ _ _ _ => rfl) rfl rfl env
    have hbsa := bsa_budget isCreate (fun _ _ => rfl) (fun _ _ => rfl)
      (fun h => by simp [List.countP_cons, List.countP_nil, isCreate])
    have hstep := fun env s e => on_event_budget isCreate hbsa hdb env s e
    have h := runFrom_budget isCreate hstep steps (some initialState, [])
      (by simp [advBudget, initialState])
    unfold runEvents
    omega
  · have hdb := fun env => gattdb_no_init_calls isTiming rfl (fun _ => rfl)
      (fun _ _ _ _ _ => rfl) rfl rfl env
    have hbsa := bsa_budget isTiming (fun _ _ => rfl) (fun _ _ => rfl)
      (fun h => by simp [List.countP_cons, List.countP_nil, isTiming])
    have hstep := fun env s e => on_event_budget isTiming hbsa hdb env s e
    have h := runFrom_budget isTiming hstep steps (some initialState, [])
      (by simp [advBudget, initialState])
    unfold runEvents
    omega

/-- C3 counterexample: deliver `boot`, then `connectionOpened 3`, then
`connectionClosed`, all statuses successful.  After the close the stored
connection handle is still `3`, not the `0xFF` "none" sentinel: the
`connection_closed` branch of `sl_bt_on_event` never writes `conn_handle`. -/
theorem conn_handle_not_cleared :
    ((runEvents [(env0, BleEvent.boot), (env0, BleEvent.connectionOpened 3),
        (env0, BleEvent.connectionClosed)]).1.map BleState.conn_handle)
      = some 3 ∧
    (3 : Nat) ≠ 0xFF := by
  decide

/-- C3 (amended): from any post-boot Connected state (`init` already
cleared, as it is in every state reached after the first boot), a
`connectionClosed` event whose re-advertising statuses are successful moves
the machine to Advertising and triggers exactly one
`generateAdvertisingData` call followed by exactly one `startAdvertising`
call — but the connection handle is left unchanged, not reset to the
`0xFF` sentinel. -/
theorem connection_closed_readvertises (env : Env) (s : BleState)
    (hInit : s.adv_init = false) (hConn : s.connState = ConnState.connected)
    (hGen : env.generateDataStatus = 0) (hStart : env.startAdvStatus = 0) :
    sl_bt_on_event env s BleEvent.connectionClosed =
      (some { s with connState := ConnState.advertising },
       [BleCall.generateAdvertisingData s.advertising_set_handle
          sl_bt_advertiser_general_discoverable,
        BleCall.startAdvertising s.advertising_set_handle
          sl_bt_advertiser_connectable_scannable]) := by
  simp [sl_bt_on_event, ble_start_advertising, adv_tail, hInit, hGen, hStart]

theorem connection_closed_readvertises_witness :
    ((runEvents [(env0, BleEvent.boot), (env0, BleEvent.connectionOpened 3)]).1 =
        some { conn_handle := 3, adv_init := false,
               advertising_set_handle := 0, connState := ConnState.connected } ∧
      env0.generateDataStatus = 0 ∧ env0.startAdvStatus = 0) ∧
    sl_bt_on_event env0
        { conn_handle := 3, adv_init := false,
          advertising_set_handle := 0, connState := ConnState.connected }
        BleEvent.connectionClosed =
      (some { conn_handle := 3, adv_init := false,
              advertising_set_handle := 0, connState := ConnState.advertising },
       [BleCall.generateAdvertisingData 0 sl_bt_advertiser_general_discoverable,
        BleCall.startAdvertising 0 sl_bt_advertiser_connectable_scannable]) :=
  ⟨by decide, connection_closed_readvertises env0
    { conn_handle := 3, adv_init := false,
      advertising_set_handle := 0, connState := ConnState.connected }
    rfl rfl rfl rfl⟩

/-- An `Env` in which `generateAdvertisingData` returns a non-success
status and everything else succeeds. -/
def envGenFail : Env := { env0 with generateDataStatus := 1 }

/-- C8 counterexample: boot, connect, then a disconnect during which
`generateAdvertisingData` returns a non-success status.  The
`app_assert_status` inside `ble_start_advertising` halts the firmware
(state `none`), and a later lifecycle event is never processed — the
device does not log-and-continue and does not stay responsive. -/
theorem readvertise_failure_halts :
    (runEvents [(env0, BleEvent.boot), (env0, BleEvent.connectionOpened 3),
      (envGenFail, BleEvent.connectionClosed)]).1 = none ∧
    runEvents [(env0, BleEvent.boot), (env0, BleEvent.connectionOpened 3),
        (envGenFail, BleEvent.connectionClosed),
        (env0, BleEvent.connectionClosed)] =
      runEvents [(env0, BleEvent.boot), (env0, BleEvent.connectionOpened 3),
        (envGenFail, BleEvent.connectionClosed)] := by
  decide

/-- C8 (amended): a non-success status from `generateAdvertisingData` or
`startAdvertising` during the routine re-advertising after a disconnect is
treated exactly like a fatal setup failure: the `app_assert_status` guard
halts the firmware rather than logging and continuing. -/
theorem readvertise_failure_fatal (env : Env) (s : BleState)
    (hInit : s.adv_init = false)
    (hfail : ¬(env.generateDataStatus = 0 ∧ env.startAdvStatus = 0)) :
    (sl_bt_on_event env s BleEvent.connectionClosed).1 = none := by
  by_cases hg : env.generateDataStatus = 0
  · have hs : ¬env.startAdvStatus = 0 := fun h => hfail ⟨hg, h⟩
    simp [sl_bt_on_event, ble_start_advertising, adv_tail, hInit, hg, hs]
  · simp [sl_bt_on_event, ble_start_advertising, adv_tail, hInit, hg]

theorem readvertise_failure_fatal_witness :
    (({ conn_handle := 3, adv_init := false, advertising_set_handle := 0,
        connState := ConnState.connected } : BleState).adv_init = false ∧
      envGenFail.generateDataStatus = 1) ∧
    (sl_bt_on_event envGenFail
      { conn_handle := 3, adv_init := false, advertising_set_handle := 0,
        connState := ConnState.connected } BleEvent.connectionClosed).1 = none :=
  ⟨by decide, readvertise_failure_fatal envGenFail
    { conn_handle := 3, adv_init := false, advertising_set_handle := 0,
      connState := ConnState.connected }
    rfl (by decide)⟩

/-- C9 (code evaluated at the failing input): during GATT setup the
BLE-MIDI data characteristic — the sixth external call, `addMidiChar` — is
created as a fixed-length value of maximum (and initial) length `1`, while
every notification payload the sketch sends on it is 5 bytes long, and
`1 ≠ 5`: the characteristic is not created with the claimed 5-byte value
length. -/
theorem midi_char_value_length_one :
    (ble_initialize_gatt_db env0).2[5]? =
      some (BleCall.gattdbAddCharacteristic midi_report_characteristic_uuid
        sl_bt_gattdb_fixed_length_value 1 1 [0]) ∧
    (payloadBytes (midi_note_on_packet 60 100 0)).length = 5 ∧
    (1 : Nat) ≠ 5 := by
  decide

end BleMidi
